import Mathlib

/-!
# Verification of the binanceBOT grid-trading core

Shallow embedding of the grid-trading engine (`src/strategies/grid_strategy.py`,
`src/strategies/market_analyzer.py`, `src/utils/error_handler.py`,
`src/utils/rate_limiter.py`, `src/exchanges/binance_client.py`).

Modelling conventions:
* Python `Decimal` values are modelled as exact rationals (`ℚ`).  The code
  mandates `Decimal` precisely to obtain exact decimal arithmetic; quantisation
  that the code performs explicitly (`formatQuantity`, `quantize(..., ROUND_DOWN)`)
  is modelled explicitly as truncation.
* Python `dict` (insertion ordered, key-addressed) is modelled as an
  association list with insertion-order semantics (`dictSet` replaces in place
  or appends, `dictDel` removes, iteration = list order).
* Side effects against the exchange / database / bus are modelled as an output
  list of `Action`s; the in-memory state transition is the function result.
* Wall-clock reads (`time.time()`) inside a single handler invocation are
  modelled by one `now` value supplied in the environment.
* An uncaught Python exception in a handler is modelled by returning `none`.
-/

namespace BinanceBot

/-- Order side, from `GridSide` in `grid_strategy.py`. -/
inductive GridSide where
  | BUY
  | SELL
deriving DecidableEq, Repr

/-- Local order status, from `OrderStatus` in `grid_strategy.py`. -/
inductive OrderStatus where
  | PENDING
  | FILLED
  | CANCELLED
deriving DecidableEq, Repr

/-- Exchange `executionReport` status values handled by `on_order_update`. -/
inductive ExecStatus where
  | NEW
  | CANCELED
  | EXPIRED
  | REJECTED
  | PARTIALLY_FILLED
  | FILLED
deriving DecidableEq, Repr

/-- `GridOrder` from `grid_strategy.py`: one tracked order on a grid line. -/
structure GridOrder where
  gridIndex : ℤ
  price : ℚ
  side : GridSide
  quantity : ℚ
  orderId : Option ℤ
  status : OrderStatus
  entryPrice : Option ℚ
deriving DecidableEq, Repr

/-- The in-memory order book `self._orders : dict[Decimal, GridOrder]`. -/
abbrev Book := List (ℚ × GridOrder)

/-- Python dict lookup `d.get(k)` / `d[k]`. -/
def dictLookup (b : Book) (k : ℚ) : Option GridOrder :=
  (b.find? (fun kv => kv.1 = k)).map (·.2)

/-- Python dict membership `k in d`. -/
def dictMem (b : Book) (k : ℚ) : Bool :=
  b.any (fun kv => kv.1 = k)

/-- Python dict assignment `d[k] = v`: replace in place, else append. -/
def dictSet (b : Book) (k : ℚ) (v : GridOrder) : Book :=
  match b with
  | [] => [(k, v)]
  | (k', v') :: rest =>
      if k' = k then (k, v) :: rest else (k', v') :: dictSet rest k v

/-- Python `del d[k]` (total here: no-op when the key is absent; the handlers
only delete keys they know to be present). -/
def dictDel (b : Book) (k : ℚ) : Book :=
  match b with
  | [] => []
  | (k', v') :: rest =>
      if k' = k then rest else (k', v') :: dictDel rest k

/-- Keys of the book in iteration order. -/
def dictKeys (b : Book) : List ℚ := b.map (·.1)

/-- The scan `for gridOrder in self._orders.values(): if gridOrder.orderId == orderId`
in `on_order_update`: first value carrying the event's exchange order id. -/
def findByOrderId (b : Book) (oid : Option ℤ) : Option (ℚ × GridOrder) :=
  b.find? (fun kv => kv.2.orderId = oid)

/-- Mutation of the matched object in place (`matchedGrid.status = ...`):
rewrite the first entry whose order id matches. -/
def updateByOrderId (b : Book) (oid : Option ℤ) (f : GridOrder → GridOrder) :
    Book :=
  match b with
  | [] => []
  | (k, v) :: rest =>
      if v.orderId = oid then (k, f v) :: rest
      else (k, v) :: updateByOrderId rest oid f

/-- The grid parameter proxy `GridSettingsProxy` (the fields the embedded
handlers read). -/
structure GridSettings where
  gridLowerPrice : ℚ
  gridUpperPrice : ℚ
  gridCount : ℕ
  gridInvestmentPerGrid : ℚ
  reserveRatio : ℚ
  adaptiveMode : Bool
  maxSpreadPercent : ℚ
  maxOrderCount : ℕ
  maxPositionRatio : ℚ
  stopLossPercent : ℚ
  takeProfitAmount : ℚ
  martinMultiplier : ℚ
  maxMartinLevels : ℕ
  tradeCooldown : ℚ
  staleDataTimeout : ℚ
  maxDrawdown : ℚ
deriving Repr

/-- `GridStrategy.generateGrid`: `gridCount + 1` arithmetic grid points
`lower + step * i` with `step = (upper - lower) / count`. -/
def generateGrid (s : GridSettings) : List ℚ :=
  let lower := s.gridLowerPrice
  let upper := s.gridUpperPrice
  let count := s.gridCount
  let step := (upper - lower) / count
  (List.range (count + 1)).map (fun (i : ℕ) => lower + step * (i : ℚ))

/-- The five market regimes of `MarketState` in `market_analyzer.py`.
(`grid_strategy.py` line 415 also references a member `NORMAL` that the enum
does not define; that access raises `AttributeError` and is modelled as an
exception, see `evaluateGridOrders`.) -/
inductive MarketState where
  | LOW_VOL_RANGE
  | WIDE_RANGE
  | STRONG_BREAKOUT
  | SLOW_BLEED
  | PANIC_SELL
deriving DecidableEq, Repr

/-- `GridAdjustment` from `market_analyzer.py`. -/
structure GridAdjustment where
  state : MarketState
  gridCenterShift : ℚ
  densityMultiplier : ℚ
  investmentMultiplier : ℚ
  shouldPause : Bool
  suggestedGridStep : Option ℚ
deriving DecidableEq, Repr

/-- Externally visible effects of a handler invocation (REST calls, bus
publications, database writes, state-file flushes). -/
inductive Action where
  | publishPrice (p : ℚ)
  | cancelAllOrders
  | nukeAllOrders
  | marketSell (qty : ℚ)
  | marketBuy (qty : ℚ)
  | createLimit (side : GridSide) (price qty : ℚ)
  | recordTrade (side : GridSide) (price qty : ℚ)
  | updateTotalPnl (pnl : ℚ)
  | publishProfit (profit : ℚ)
  | notifyCritical
  | saveState
deriving DecidableEq, Repr

/-- The mutable per-bot strategy state of `GridStrategy` (the fields touched
by the embedded handlers). -/
structure StratState where
  gridPrices : List ℚ
  orders : Book
  realizedProfit : ℚ
  running : Bool
  lastPrice : ℚ
  lastSpread : ℚ
  lastSpreadTime : ℚ
  creationLocks : List (ℤ × GridSide)
  currentAdjustment : Option GridAdjustment
  martinLevel : ℕ
  initialEquity : Option ℚ
  lastTradeTime : ℚ
deriving DecidableEq, Repr

/-- Read-only snapshot of the collaborators a handler consults during one
invocation: wall clock, balance snapshot, order-book spread, rate-limiter
gauge, symbol filters, and the exchange-assigned id for a newly created
order. -/
structure ExchEnv where
  now : ℚ
  spread : ℚ
  freeUSDT : ℚ
  freeBase : ℚ
  circuitBreaker : Bool
  analyzerLastTime : ℚ
  minNotional : ℚ
  qtyPrecision : ℕ
  newOrderId : ℤ
deriving Repr

/-- `BinanceClient.formatQuantity`: `Decimal.quantize(10^-p, ROUND_DOWN)`,
truncation toward zero at `p` decimal places. -/
def formatQuantity (p : ℕ) (q : ℚ) : ℚ :=
  if 0 ≤ q then ⌊q * (10 : ℚ) ^ p⌋ / (10 : ℚ) ^ p
  else -(⌊-q * (10 : ℚ) ^ p⌋ / (10 : ℚ) ^ p)

/-- Python `int()` applied to a rational: truncation toward zero. -/
def pyInt (q : ℚ) : ℤ :=
  if 0 ≤ q then ⌊q⌋ else -⌊-q⌋

/-- Python list indexing with wrap-around for negative indices (out-of-range
access, an `IndexError`, is defaulted to `0`; the handlers only index within
range once the grid has been generated). -/
def pyGet (l : List ℚ) (i : ℤ) : ℚ :=
  if 0 ≤ i then l.getD i.toNat 0 else l.getD (l.length + i).toNat 0

/-- `getTotalPositionValue(price)` over the balance snapshot:
`(baseFree·price, usdtFree + baseFree·price)`. -/
def totalPositionValue (env : ExchEnv) (price : ℚ) : ℚ × ℚ :=
  (env.freeBase * price, env.freeUSDT + env.freeBase * price)

/-- Investment sizing shared by the buy/sell placement paths: scale
`gridInvestmentPerGrid` by the adjustment's investment multiplier, capped at
`martinMultiplier` times the base investment. -/
def scaledInvestment (cfg : GridSettings) (adj : Option GridAdjustment) : ℚ :=
  match adj with
  | some a =>
      min (cfg.gridInvestmentPerGrid * a.investmentMultiplier)
        (cfg.gridInvestmentPerGrid * cfg.martinMultiplier)
  | none => cfg.gridInvestmentPerGrid

/-- `GridStrategy._placeSellOrder` — the companion sell placed after a buy
fill.  The cooldown here queue-waits (sleeps) rather than aborting; the model
takes `env.now` as the time after any such wait.  The success path of
`createLimitOrder` is modelled; a thrown exception would be caught and leave
the state as at the time of the throw. -/
def placeSellOrder (cfg : GridSettings) (env : ExchEnv) (s : StratState)
    (gridIndex : ℤ) (buyPrice quantity : ℚ) : StratState × List Action :=
  if (gridIndex, GridSide.SELL) ∈ s.creationLocks then (s, [])
  else
    let sellGridIndex := gridIndex + 1
    let sellPrice :=
      if (s.gridPrices.length : ℤ) ≤ sellGridIndex then
        buyPrice + (cfg.gridUpperPrice - cfg.gridLowerPrice) / cfg.gridCount
      else pyGet s.gridPrices sellGridIndex
    let q1 := if env.freeBase < quantity then env.freeBase else quantity
    let notionalShort := q1 * sellPrice < env.minNotional
    if notionalShort ∧ env.freeBase < env.minNotional * (101/100) / sellPrice then
      (s, [])
    else
      let q2 :=
        if notionalShort then env.minNotional * (101/100) / sellPrice else q1
      let q3 := formatQuantity env.qtyPrecision q2
      let newOrder : GridOrder :=
        { gridIndex := gridIndex, price := sellPrice, side := GridSide.SELL,
          quantity := q3, orderId := some env.newOrderId,
          status := OrderStatus.PENDING, entryPrice := some buyPrice }
      ({ s with lastTradeTime := env.now,
                orders := dictSet s.orders sellPrice newOrder },
       [Action.createLimit GridSide.SELL sellPrice q3, Action.saveState])

/-- One `executionReport` from the user-data stream, fields `i` (order id),
`X` (status), `S` (side), `L` (last fill price), `z` (cumulative quantity). -/
structure ExecReport where
  i : Option ℤ
  X : ExecStatus
  S : GridSide
  L : ℚ
  z : ℚ
deriving Repr

/-- `GridStrategy.on_order_update`.  Unknown order ids are ignored;
CANCELED/EXPIRED/REJECTED clears the local entry; PARTIALLY_FILLED only logs;
FILLED on BUY places the companion sell; FILLED on SELL books the paired
profit, removes the sell entry and the entry keyed at the recorded
`entryPrice`, then a trade row is persisted and (for sells) the bot's
`total_pnl` column is synchronised. -/
def onOrderUpdate (cfg : GridSettings) (env : ExchEnv) (s : StratState)
    (ev : ExecReport) : StratState × List Action :=
  match findByOrderId s.orders ev.i with
  | none => (s, [])
  | some (_, m) =>
    -- `status in ("CANCELED", "EXPIRED", "REJECTED")`, `== "PARTIALLY_FILLED"`,
    -- `!= "FILLED"` — the string comparisons are rendered as a case split
    match ev.X with
    | ExecStatus.CANCELED | ExecStatus.EXPIRED | ExecStatus.REJECTED =>
      let b1 := updateByOrderId s.orders ev.i
        (fun o => { o with status := OrderStatus.CANCELLED })
      ({ s with orders := dictDel b1 m.price }, [Action.saveState])
    | ExecStatus.PARTIALLY_FILLED => (s, [])
    | ExecStatus.NEW => (s, [])
    | ExecStatus.FILLED =>
      let b1 := updateByOrderId s.orders ev.i
        (fun o => { o with status := OrderStatus.FILLED })
      let s1 := { s with orders := b1 }
      match ev.S with
      | GridSide.BUY =>
        let (s2, acts) := placeSellOrder cfg env s1 m.gridIndex ev.L ev.z
        (s2, acts ++ [Action.recordTrade GridSide.BUY ev.L ev.z, Action.saveState])
      | GridSide.SELL =>
        let entryTruthy : Bool := match m.entryPrice with
          | some e => decide (e ≠ 0)
          | none => false
        if entryTruthy then
          let e := m.entryPrice.getD 0
          let profit := (ev.L - e) * ev.z
          let s2 := { s1 with realizedProfit := s1.realizedProfit + profit }
          let b2 := dictDel s2.orders m.price
          let b3 := if dictMem b2 e then dictDel b2 e else b2
          ({ s2 with orders := b3 },
           [Action.publishProfit profit,
            Action.recordTrade GridSide.SELL ev.L ev.z,
            Action.updateTotalPnl s2.realizedProfit, Action.saveState])
        else
          (s1, [Action.recordTrade GridSide.SELL ev.L ev.z,
                Action.updateTotalPnl s1.realizedProfit, Action.saveState])

/-- `GridStrategy._emergencyExit`: stop the strategy, cancel all open orders,
market-sell the remaining base asset, notify, flush state. -/
def emergencyExit (env : ExchEnv) (s : StratState) : StratState × List Action :=
  ({ s with running := false },
   [Action.cancelAllOrders] ++
   (if 0 < env.freeBase then [Action.marketSell env.freeBase] else []) ++
   [Action.notifyCritical, Action.saveState])

/-- `GridStrategy._checkStopLoss`: fire when
`price ≤ gridPrices[0] * (1 - stopLossPercent)`. -/
def checkStopLoss (cfg : GridSettings) (env : ExchEnv) (s : StratState)
    (currentPrice : ℚ) : (StratState × List Action) × Bool :=
  let stopPrice := pyGet s.gridPrices 0 * (1 - cfg.stopLossPercent)
  if currentPrice ≤ stopPrice then (emergencyExit env s, true)
  else ((s, []), false)

/-- `GridStrategy._checkTakeProfit`: fire when
`realizedProfit ≥ takeProfitAmount`. -/
def checkTakeProfit (cfg : GridSettings) (env : ExchEnv) (s : StratState) :
    (StratState × List Action) × Bool :=
  if cfg.takeProfitAmount ≤ s.realizedProfit then (emergencyExit env s, true)
  else ((s, []), false)

/-- `GridStrategy._checkMaxDrawdown`: equity drawdown versus the initial
snapshot, computed from the local balance snapshot and `lastPrice`. -/
def checkMaxDrawdown (cfg : GridSettings) (env : ExchEnv) (s : StratState) :
    (StratState × List Action) × Bool :=
  match s.initialEquity with
  | none => ((s, []), false)
  | some ie =>
    if ie ≤ 0 then ((s, []), false)
    else if s.lastPrice ≤ 0 then ((s, []), false)
    else
      let totalValue := (totalPositionValue env s.lastPrice).2
      let drawdown := (ie - totalValue) / ie
      if cfg.maxDrawdown ≤ drawdown then (emergencyExit env s, true)
      else ((s, []), false)

/-- `GridStrategy._checkPositionRatio`: position value over total equity
versus `maxPositionRatio`; buys stop when the ratio is at or above it. -/
def checkPositionRatio (cfg : GridSettings) (env : ExchEnv) (s : StratState)
    (currentPrice : ℚ) : Bool :=
  let p := if currentPrice ≤ 0 then s.lastPrice else currentPrice
  if p ≤ 0 then false
  else
    let (positionValue, totalValue) := totalPositionValue env p
    if totalValue ≤ 0 then false
    else decide (cfg.maxPositionRatio ≤ positionValue / totalValue)

/-- `GridStrategy._isDataStale`: adaptive mode only; stale when the last
analysis is older than `staleDataTimeout` (0 means no analysis yet). -/
def isDataStale (cfg : GridSettings) (env : ExchEnv) : Bool :=
  if ¬cfg.adaptiveMode then false
  else if env.analyzerLastTime = 0 then false
  else decide (cfg.staleDataTimeout < env.now - env.analyzerLastTime)

/-- `GridStrategy._placeBuyOrder`: the guarded buy placement
(lock, cached spread, reserve, position ratio, open-order ceiling, circuit
breaker, martin-capped sizing, notional floor, cooldown). -/
def placeBuyOrder (cfg : GridSettings) (env : ExchEnv) (s : StratState)
    (gridIndex : ℤ) (price : ℚ) : StratState × List Action :=
  if (gridIndex, GridSide.BUY) ∈ s.creationLocks then (s, [])
  else
    -- spread cache refresh (at most every 5 s); the refresh survives
    -- every later early return
    let s0 :=
      if 5 < env.now - s.lastSpreadTime then
        { s with lastSpread := env.spread, lastSpreadTime := env.now }
      else s
    if cfg.maxSpreadPercent < s0.lastSpread then (s0, [])
    else
      let freeBalance := env.freeUSDT
      let totalInvested := (s0.orders.filter (fun kv =>
          kv.2.status = OrderStatus.PENDING ∧ kv.2.side = GridSide.BUY)).foldl
          (fun acc kv => acc + kv.2.quantity * kv.2.price) 0
      let totalFunds := freeBalance + totalInvested
      if freeBalance < totalFunds * cfg.reserveRatio then (s0, [])
      else if checkPositionRatio cfg env s0 price then (s0, [])
      else
        let pendingCount :=
          (s0.orders.filter (fun kv => kv.2.status = OrderStatus.PENDING)).length
        if cfg.maxOrderCount ≤ pendingCount then (s0, [])
        else if env.circuitBreaker then (s0, [])
        else
          let baseInvestment0 := scaledInvestment cfg s0.currentAdjustment
          let baseInvestment :=
            if cfg.maxMartinLevels ≤ s0.martinLevel then cfg.gridInvestmentPerGrid
            else baseInvestment0
          let q0 := baseInvestment / price
          let q1 :=
            if q0 * price < env.minNotional then
              env.minNotional * (101/100) / price
            else q0
          let q2 := formatQuantity env.qtyPrecision q1
          if env.now - s0.lastTradeTime < cfg.tradeCooldown then (s0, [])
          else
            let newOrder : GridOrder :=
              { gridIndex := gridIndex, price := price, side := GridSide.BUY,
                quantity := q2, orderId := some env.newOrderId,
                status := OrderStatus.PENDING, entryPrice := none }
            let martin' :=
              match s0.currentAdjustment with
              | some adj => if 1 < adj.investmentMultiplier then
                  s0.martinLevel + 1 else 0
              | none => 0
            ({ s0 with lastTradeTime := env.now,
                       orders := dictSet s0.orders price newOrder,
                       martinLevel := martin' },
             [Action.createLimit GridSide.BUY price q2, Action.saveState])

/-- `GridStrategy._placeInitialSellOrder`: sell-wall construction above the
current price, backed by owned base asset. -/
def placeInitialSellOrder (cfg : GridSettings) (env : ExchEnv) (s : StratState)
    (gridIndex : ℤ) (sellPrice step : ℚ) : StratState × List Action :=
  if (gridIndex, GridSide.SELL) ∈ s.creationLocks then (s, [])
  else
    let assumedBuyPrice := sellPrice - step
    if assumedBuyPrice ≤ 0 then (s, [])
    else
      let baseInvestment := scaledInvestment cfg s.currentAdjustment
      let q0 := baseInvestment / assumedBuyPrice
      if env.freeBase < q0 then (s, [])
      else
        let notionalShort := q0 * sellPrice < env.minNotional
        if notionalShort ∧ env.freeBase < env.minNotional * (101/100) / sellPrice then
          (s, [])
        else
          let q1 := if notionalShort then
              env.minNotional * (101/100) / sellPrice else q0
          let q2 := formatQuantity env.qtyPrecision q1
          if env.now - s.lastTradeTime < cfg.tradeCooldown then (s, [])
          else
            let newOrder : GridOrder :=
              { gridIndex := gridIndex, price := sellPrice,
                side := GridSide.SELL, quantity := q2,
                orderId := some env.newOrderId,
                status := OrderStatus.PENDING,
                entryPrice := some assumedBuyPrice }
            ({ s with lastTradeTime := env.now,
                      orders := dictSet s.orders sellPrice newOrder },
             [Action.createLimit GridSide.SELL sellPrice q2, Action.saveState])

/-- One pass of the `while checkPrice <= gridUpperPrice` scan of
`_evaluateGridOrders`.  `k` numbers the loop iterations so that each
placement consumes a fresh exchange order id (`newOrderId + k`). -/
def evalLoop (cfg : GridSettings) (env : ExchEnv) (dynStep currentPrice : ℚ) :
    ℕ → ℚ → ℕ → StratState × List Action → StratState × List Action
  | 0, _, _, acc => acc
  | fuel + 1, checkPrice, k, (s, acts) =>
    if cfg.gridUpperPrice < checkPrice then (s, acts)
    else
      let envK := { env with newOrderId := env.newOrderId + k }
      let (s', acts') :=
        if currentPrice < checkPrice then
          let occupied := s.orders.any (fun kv =>
            kv.2.side = GridSide.SELL ∧ kv.2.status = OrderStatus.PENDING ∧
            |kv.2.price - checkPrice| < dynStep * (1/10))
          if occupied then (s, [])
          else
            let virtualIdx :=
              if 0 < dynStep then pyInt ((checkPrice - cfg.gridLowerPrice) / dynStep)
              else 0
            placeInitialSellOrder cfg envK s virtualIdx checkPrice dynStep
        else if checkPrice < currentPrice then
          let occupied := s.orders.any (fun kv =>
            kv.2.side = GridSide.BUY ∧
            (kv.2.status = OrderStatus.PENDING ∨ kv.2.status = OrderStatus.FILLED) ∧
            |kv.2.price - checkPrice| < dynStep * (1/10))
          if occupied then (s, [])
          else
            let virtualIdx :=
              if 0 < dynStep then pyInt ((checkPrice - cfg.gridLowerPrice) / dynStep)
              else 0
            placeBuyOrder cfg envK s virtualIdx checkPrice
        else (s, [])
      if dynStep ≤ 0 then (s', acts ++ acts')
      else evalLoop cfg env dynStep currentPrice fuel (checkPrice + dynStep)
        (k + 1) (s', acts ++ acts')

/-- `GridStrategy._evaluateGridOrders`.  `none` models the uncaught
`AttributeError` raised by the `MarketState.NORMAL` access on the
fresh-adjustment/non-adaptive branch (the enum has no such member).  The scan
is expressed with enough fuel to cover the whole `[lower, upper]` range. -/
def evaluateGridOrders (cfg : GridSettings) (env : ExchEnv) (s : StratState)
    (currentPrice : ℚ) : Option (StratState × List Action) :=
  match s.currentAdjustment with
  | none =>
      if ¬cfg.adaptiveMode then none
      else some (s, [])
  | some adj =>
      let baseStep := (cfg.gridUpperPrice - cfg.gridLowerPrice) / cfg.gridCount
      let dynStep := baseStep / adj.densityMultiplier
      let fuel :=
        if 0 < dynStep then
          (⌈(cfg.gridUpperPrice - cfg.gridLowerPrice) / dynStep⌉.toNat + 2)
        else 1
      some (evalLoop cfg env dynStep currentPrice fuel cfg.gridLowerPrice 0 (s, []))

/-- `GridStrategy.on_price_update`: the per-tick pipeline — running flag,
price broadcast, stop-loss / take-profit / drawdown gates, adaptive pause,
stale-data guard, then grid evaluation.  `none` models an uncaught
exception. -/
def onPriceUpdate (cfg : GridSettings) (env : ExchEnv) (s : StratState)
    (price : ℚ) : Option (StratState × List Action) :=
  if ¬s.running then some (s, [])
  else
    let s1 := { s with lastPrice := price }
    let acts0 := [Action.publishPrice price]
    let (r1, fired1) := checkStopLoss cfg env s1 price
    if fired1 then some (r1.1, acts0 ++ r1.2)
    else
      let (r2, fired2) := checkTakeProfit cfg env s1
      if fired2 then some (r2.1, acts0 ++ r2.2)
      else
        let (r3, fired3) := checkMaxDrawdown cfg env s1
        if fired3 then some (r3.1, acts0 ++ r3.2)
        else
          let paused := match s1.currentAdjustment with
            | some adj => adj.shouldPause
            | none => false
          if paused then some (s1, acts0)
          else if isDataStale cfg env then some (s1, acts0)
          else
            (evaluateGridOrders cfg env s1 price).map
              (fun r => (r.1, acts0 ++ r.2))

/-- The constructor defaults of `GridStrategy.__init__` for the embedded
fields. -/
def freshStrategyState : StratState where
  gridPrices := []
  orders := []
  realizedProfit := 0
  running := false
  lastPrice := 0
  lastSpread := 1
  lastSpreadTime := 0
  creationLocks := []
  currentAdjustment := none
  martinLevel := 0
  initialEquity := none
  lastTradeTime := 0

/-- Inputs consumed by `GridStrategy.initialize`: whether a state file was
restored (and its content), the current ticker price, the balance snapshot,
and the equity snapshot taken by `start()`. -/
structure InitEnv where
  restored : Bool
  restoredOrders : Book
  restoredProfit : ℚ
  restoredLastPrice : ℚ
  currentPrice : ℚ
  freeUSDT : ℚ
  freeBase : ℚ
  qtyPrecision : ℕ
  initialEquity : ℚ
deriving Repr

/-- The sell-wall requirement scan of `_bootstrapPosition`: sum of
`investment_per_grid / (line - step)` over grid lines above the current
price. -/
def bootstrapNeededLoop (cfg : GridSettings) (currentPrice baseStep : ℚ) :
    ℕ → ℚ → ℚ → ℚ
  | 0, _, acc => acc
  | fuel + 1, checkPrice, acc =>
    if cfg.gridUpperPrice < checkPrice then acc
    else
      let acc' :=
        if currentPrice < checkPrice ∧ 0 < checkPrice - baseStep then
          acc + cfg.gridInvestmentPerGrid / (checkPrice - baseStep)
        else acc
      if baseStep ≤ 0 then acc'
      else bootstrapNeededLoop cfg currentPrice baseStep fuel
        (checkPrice + baseStep) acc'

/-- Total base asset needed to post the full sell wall above `currentPrice`. -/
def bootstrapNeeded (cfg : GridSettings) (currentPrice : ℚ) : ℚ :=
  let baseStep := (cfg.gridUpperPrice - cfg.gridLowerPrice) / cfg.gridCount
  let fuel :=
    if 0 < baseStep then
      (⌈(cfg.gridUpperPrice - cfg.gridLowerPrice) / baseStep⌉.toNat + 2)
    else 1
  bootstrapNeededLoop cfg currentPrice baseStep fuel cfg.gridLowerPrice 0

/-- `GridStrategy._bootstrapPosition`.  Returns the external actions and
whether the call raised.  The market-buy step sits in a
`try/except/finally` whose `finally` executes
`self._creation_locks.discard(lock_key)` with `lock_key` undefined in that
function, so every path that reaches the buy step raises `NameError` after
its effects (the early returns before the `try` do not). -/
def bootstrapPosition (cfg : GridSettings) (env : InitEnv) :
    List Action × Bool :=
  let totalBaseNeeded := bootstrapNeeded cfg env.currentPrice
  if totalBaseNeeded ≤ 0 then ([], false)
  else
    let neededToBuy := totalBaseNeeded - env.freeBase
    if neededToBuy ≤ 0 then ([], false)
    else
      let estimatedCost := neededToBuy * env.currentPrice * (102/100)
      let needed2 :=
        if env.freeUSDT < estimatedCost then
          env.freeUSDT / (env.currentPrice * (102/100))
        else neededToBuy
      if needed2 ≤ 0 then ([], true)
      else
        let buyQty := formatQuantity env.qtyPrecision needed2
        if buyQty ≤ 0 then ([], true)
        else ([Action.marketBuy buyQty], true)

/-- `GridStrategy.initialize`: generate the grid, restore state, gap-check,
bootstrap on fresh start, read the free quote balance against
`investment_per_grid × grid_count × 1.002` (the code computes and logs this
requirement), then `start()` (sets `running := true` and snapshots the
initial equity).  `none` models an exception escaping `initialize`. -/
def initializeModel (cfg : GridSettings) (env : InitEnv) :
    Option (StratState × List Action) :=
  let s1 := { freshStrategyState with gridPrices := generateGrid cfg }
  let s2 :=
    if env.restored then
      { s1 with orders := env.restoredOrders,
                realizedProfit := env.restoredProfit,
                lastPrice := env.restoredLastPrice }
    else s1
  let s3 := { s2 with lastPrice := env.currentPrice }
  let finish := fun (s : StratState) (acts : List Action) =>
    -- free-balance read and `totalRequired` comparison are logged only,
    -- then `start()` runs unconditionally
    some ({ s with running := true, initialEquity := some env.initialEquity },
      acts)
  if env.restored then finish s3 []
  else
    let acts0 := [Action.nukeAllOrders]
    if env.currentPrice > cfg.gridUpperPrice ∨
        env.currentPrice < cfg.gridLowerPrice then
      some ({ s3 with running := false }, acts0)
    else
      let (bacts, raised) := bootstrapPosition cfg env
      if raised then none
      else finish s3 (acts0 ++ bacts)

/-- The fee-buffer requirement `initialize` computes (and only logs):
`investment_per_grid × grid_count × 1.002`. -/
def totalRequired (cfg : GridSettings) : ℚ :=
  cfg.gridInvestmentPerGrid * cfg.gridCount * (1002/1000)

/-- `GridOrder.toDict` serialises `entryPrice` as `str(entryPrice) if
entryPrice else None`: a `None` or zero entry price becomes JSON `null`;
`GridOrder.fromDict` parses any non-empty string back (decimal strings are
never empty, so parsing is the identity on what `toDict` emitted). -/
def serializeEntryPrice : Option ℚ → Option ℚ
  | some e => if e = 0 then none else some e
  | none => none

/-- `GridOrder.fromDict (GridOrder.toDict o)`: every field survives
unchanged except the entry price, which passes through the truthiness test
of `toDict`. -/
def orderRoundTrip (o : GridOrder) : GridOrder :=
  { o with entryPrice := serializeEntryPrice o.entryPrice }

/-- `_saveState` then `_loadState`: the JSON object holds one entry per book
pair (keyed by `str(price)`); `_loadState` rebuilds the book by inserting
each parsed order at its own `price` field, in file order. -/
def saveLoadOrders (b : Book) : Book :=
  b.foldl (fun acc kv =>
    dictSet acc (orderRoundTrip kv.2).price (orderRoundTrip kv.2)) []

/-- `realizedProfit` is serialised with `str` and parsed with `Decimal`:
identity on exact decimals. -/
def saveLoadProfit (p : ℚ) : ℚ := p

/-- Parameters of the `POST /order type=MARKET` call that
`createMarketOrder` would submit. -/
structure MarketOrderParams where
  side : GridSide
  quantity : Option ℚ
  quoteOrderQty : Option ℚ
deriving DecidableEq, Repr

/-- `BinanceClient.createMarketOrder`: `quantity` takes precedence when
present; `quoteOrderQty` is used only when `quantity` is absent; with
neither, `InvalidOrderError` is raised. -/
def createMarketOrder (qtyPrecision : ℕ) (side : GridSide)
    (quantity quoteQuantity : Option ℚ) : Except String MarketOrderParams :=
  match quantity with
  | some q =>
      Except.ok { side := side,
                  quantity := some (formatQuantity qtyPrecision q),
                  quoteOrderQty := none }
  | none =>
      match quoteQuantity with
      | some qq =>
          Except.ok { side := side, quantity := none,
                      quoteOrderQty := some qq }
      | none => Except.error "InvalidOrderError"

/-- `AsymmetricStateController` of `market_analyzer.py`: confirmed regime
plus the deque-based confirmation buffer (`maxlen = confirmation_candles`). -/
structure StateController where
  currentState : MarketState
  stateBuffer : List MarketState
  confirmationCandles : ℕ
deriving DecidableEq, Repr

/-- Membership in `DANGER_STATES = {SLOW_BLEED, PANIC_SELL}`. -/
def isDangerState : MarketState → Bool
  | MarketState.SLOW_BLEED => true
  | MarketState.PANIC_SELL => true
  | _ => false

/-- `deque(maxlen = n).append`: keep only the newest `n` entries. -/
def dequeAppend (maxlen : ℕ) (l : List MarketState) (x : MarketState) :
    List MarketState :=
  let l' := l ++ [x]
  if maxlen < l'.length then l'.drop (l'.length - maxlen) else l'

/-- `AsymmetricStateController.get_confirmed_state`: danger regimes switch
immediately (clearing the buffer); everything else needs the buffer to fill
with `confirmation_candles` consecutive matching samples. -/
def getConfirmedState (c : StateController) (raw : MarketState) :
    StateController × MarketState :=
  if isDangerState raw then
    if c.currentState ≠ raw then
      ({ c with currentState := raw, stateBuffer := [] }, raw)
    else (c, c.currentState)
  else if raw = c.currentState then
    ({ c with stateBuffer := [] }, c.currentState)
  else
    let buf := dequeAppend c.confirmationCandles c.stateBuffer raw
    if buf.length = c.confirmationCandles ∧ buf.all (· = raw) then
      ({ c with currentState := raw, stateBuffer := [] }, raw)
    else ({ c with stateBuffer := buf }, c.currentState)

/-- `MarketAnalyzer.COOLING_CANDLES`. -/
def COOLING_CANDLES : ℕ := 3

/-- `MarketAnalyzer.CONFIRMATION_CANDLES`. -/
def CONFIRMATION_CANDLES : ℕ := 2

/-- The indicator values feeding `_generateAdjustment` (computed by the
analyzer from klines; inputs here since the claims quantify over them). -/
structure IndicatorInputs where
  rsi : ℚ
  atrRatio : ℚ
  volumeRatio : ℚ
  suggestedStep : ℚ
  positionRatio : ℚ
  currentPrice : ℚ
  isMacroBullish : Bool
  isGoldenCross : Bool
  decayMin : ℚ
deriving Repr

/-- `MarketAnalyzer._lowVolRangeAdjustment`. -/
def lowVolRangeAdjustment (atrRatio step : ℚ) : GridAdjustment :=
  let density : ℚ :=
    if atrRatio < 3/1000 then 2
    else if atrRatio < 5/1000 then 3/2
    else 6/5
  { state := MarketState.LOW_VOL_RANGE, gridCenterShift := 0,
    densityMultiplier := density, investmentMultiplier := 1,
    shouldPause := false, suggestedGridStep := some step }

/-- `MarketAnalyzer._wideRangeAdjustment`. -/
def wideRangeAdjustment (step : ℚ) : GridAdjustment :=
  { state := MarketState.WIDE_RANGE, gridCenterShift := 0,
    densityMultiplier := 7/10, investmentMultiplier := 1,
    shouldPause := false, suggestedGridStep := some step }

/-- `MarketAnalyzer._breakoutAdjustment`. -/
def breakoutAdjustment (rsi step : ℚ) : GridAdjustment :=
  { state := MarketState.STRONG_BREAKOUT,
    gridCenterShift := if 70 < rsi then 6/100 else 3/100,
    densityMultiplier := 8/10, investmentMultiplier := 7/10,
    shouldPause := false, suggestedGridStep := some step }

/-- `MarketAnalyzer._slowBleedAdjustment` (pauses new entries). -/
def slowBleedAdjustment (step : ℚ) : GridAdjustment :=
  { state := MarketState.SLOW_BLEED, gridCenterShift := -(3/100),
    densityMultiplier := 6/10, investmentMultiplier := 1/2,
    shouldPause := true, suggestedGridStep := some step }

/-- `MarketAnalyzer._panicSellAdjustment`. -/
def panicSellAdjustment (volumeRatio step : ℚ) : GridAdjustment :=
  { state := MarketState.PANIC_SELL, gridCenterShift := -(8/100),
    densityMultiplier := 1/2,
    investmentMultiplier := if 2 < volumeRatio then 3/2 else 13/10,
    shouldPause := false, suggestedGridStep := some step }

/-- `MarketAnalyzer._generateAdjustment`: base recipe per regime, then the
v2.3 modifier chain (macro-bullish density boost, panic-buy amplification,
extreme-volatility damping, fee shield, macro-bearish step widening and
investment cap, Smart Brake squared position decay). -/
def generateAdjustment (state : MarketState) (ind : IndicatorInputs) :
    GridAdjustment :=
  let adj :=
    match state with
    | MarketState.LOW_VOL_RANGE => lowVolRangeAdjustment ind.atrRatio ind.suggestedStep
    | MarketState.WIDE_RANGE => wideRangeAdjustment ind.suggestedStep
    | MarketState.STRONG_BREAKOUT => breakoutAdjustment ind.rsi ind.suggestedStep
    | MarketState.SLOW_BLEED => slowBleedAdjustment ind.suggestedStep
    | MarketState.PANIC_SELL => panicSellAdjustment ind.volumeRatio ind.suggestedStep
  let density1 :=
    if ind.isMacroBullish then
      if ind.isGoldenCross then (3/2 : ℚ)
      else if 45 ≤ ind.rsi ∧ ind.rsi ≤ 65 then max adj.densityMultiplier (6/5)
      else adj.densityMultiplier
    else adj.densityMultiplier
  let invest0 :=
    if ind.isMacroBullish ∧ state = MarketState.PANIC_SELL then (9/5 : ℚ)
    else adj.investmentMultiplier
  let density2 := if 5/100 < ind.atrRatio then density1 * (8/10) else density1
  let finalStep0 := ind.suggestedStep
  let density3 :=
    if finalStep0 ≠ 0 ∧ 0 < ind.currentPrice then
      if finalStep0 / density2 / ind.currentPrice < 2/1000 then
        finalStep0 / (ind.currentPrice * (2/1000))
      else density2
    else density2
  let finalStep1 := if ¬ind.isMacroBullish then finalStep0 * (12/10) else finalStep0
  let maxInvest : ℚ := if ¬ind.isMacroBullish then 1 else 2
  let safetyMargin := 1 - ind.positionRatio
  let decayFactor := max ind.decayMin (safetyMargin * safetyMargin)
  let finalInvest := min maxInvest (invest0 * decayFactor)
  { state := state, gridCenterShift := adj.gridCenterShift,
    densityMultiplier := density3, investmentMultiplier := finalInvest,
    shouldPause := adj.shouldPause, suggestedGridStep := some finalStep1 }

/-- The analyzer's mutable confirmation/cooling state. -/
structure AnalyzerState where
  controller : StateController
  coolingRemaining : ℕ
deriving DecidableEq, Repr

/-- Steps 1–6 of `MarketAnalyzer.analyze` downstream of the raw
classification: confirm the raw regime, tick the cooling counter, arm it on
leaving a danger regime, generate the adjustment, and force `shouldPause`
while cooling. -/
def analyzeStep (a : AnalyzerState) (raw : MarketState)
    (ind : IndicatorInputs) : AnalyzerState × GridAdjustment :=
  let lastConfirmed := a.controller.currentState
  let (c', state) := getConfirmedState a.controller raw
  let cooling1 :=
    if 0 < a.coolingRemaining then a.coolingRemaining - 1
    else a.coolingRemaining
  let cooling2 :=
    if isDangerState lastConfirmed ∧ ¬isDangerState state then COOLING_CANDLES
    else cooling1
  let adj := generateAdjustment state ind
  let adj' :=
    if 0 < cooling2 ∧ ¬adj.shouldPause then { adj with shouldPause := true }
    else adj
  ({ controller := c', coolingRemaining := cooling2 }, adj')

/-- Outcome of one invocation of a function wrapped by `retryOnError`. -/
inductive CallOutcome where
  | success
  | apiError (code : ℤ)
  | netError
deriving DecidableEq, Repr

/-- Observable events of a `retryOnError` run: invocations of the wrapped
function (0-based) and invocations of the `onTimeSyncError` callback. -/
inductive RetryEvent where
  | call (attemptIdx : ℕ)
  | sync
deriving DecidableEq, Repr

/-- Final result of a `retryOnError` run. -/
inductive RetryResult where
  | ok
  | raisedApi (code : ℤ)
  | raisedNet
  | raisedExhausted
deriving DecidableEq, Repr

/-- The three classification labels `classifyError` returns
(`"retryable"` / `"skip"` / `"unknown"` in the source). -/
inductive ErrorClass where
  | retryable
  | skip
  | unknown
deriving DecidableEq, Repr

/-- `classifyError` of `error_handler.py`: codes in `RETRYABLE_ERRORS`
(-1021, -1003, -1015) are retryable; codes in `NON_RETRYABLE_ERRORS`
(-2010, -1013, -1121, -2015) are skipped; everything else is unknown. -/
def classifyError (code : ℤ) : ErrorClass :=
  if code = -1021 ∨ code = -1003 ∨ code = -1015 then ErrorClass.retryable
  else if code = -2010 ∨ code = -1013 ∨ code = -1121 ∨ code = -2015 then
    ErrorClass.skip
  else ErrorClass.unknown

/-- The retry loop of `retryOnError`: `remaining` counts attempts still
allowed (initially `maxRetries`), `idx` the 0-based invocation index,
`lastExc` the last exception seen.  Unknown API errors retry only while a
further attempt remains (`attempt < maxRetries` in the source). -/
def retryGo (hasSync : Bool) (outcomes : ℕ → CallOutcome) :
    ℕ → ℕ → List RetryEvent → Option CallOutcome →
    List RetryEvent × RetryResult
  | 0, _, trace, lastExc =>
      (trace, match lastExc with
        | some (CallOutcome.apiError c) => RetryResult.raisedApi c
        | some CallOutcome.netError => RetryResult.raisedNet
        | _ => RetryResult.raisedExhausted)
  | remaining + 1, idx, trace, _ =>
      let trace1 := trace ++ [RetryEvent.call idx]
      match outcomes idx with
      | CallOutcome.success => (trace1, RetryResult.ok)
      | CallOutcome.apiError c =>
          match classifyError c with
          | ErrorClass.skip => (trace1, RetryResult.raisedApi c)
          | ErrorClass.retryable =>
            let trace2 :=
              if c = -1021 ∧ hasSync then trace1 ++ [RetryEvent.sync]
              else trace1
            retryGo hasSync outcomes remaining (idx + 1) trace2
              (some (CallOutcome.apiError c))
          | ErrorClass.unknown =>
            if 0 < remaining then
              retryGo hasSync outcomes remaining (idx + 1) trace1
                (some (CallOutcome.apiError c))
            else (trace1, RetryResult.raisedApi c)
      | CallOutcome.netError =>
          retryGo hasSync outcomes remaining (idx + 1) trace1
            (some CallOutcome.netError)

/-- A full `retryOnError(maxRetries, ..., onTimeSyncError?)` run against the
outcome trace of the wrapped function. -/
def retryOnErrorRun (maxRetries : ℕ) (hasSync : Bool)
    (outcomes : ℕ → CallOutcome) : List RetryEvent × RetryResult :=
  retryGo hasSync outcomes maxRetries 0 [] none

/-- `TokenBucket.acquire`: refill from the elapsed time `e1` since the last
refill, take the tokens if they suffice, otherwise sleep
`waitTime = deficit / refillRate` (plus any scheduler delay `extra ≥ 0`,
since `asyncio.sleep` waits at least the requested time), refill again, and
subtract unconditionally.  Returns the new token count and whether a wait
happened — the method structurally returns after at most one wait. -/
def bucketAcquire (capacity refillRate tokens cost e1 extra : ℚ) : ℚ × Bool :=
  let t1 := min capacity (tokens + e1 * refillRate)
  if cost ≤ t1 then (t1 - cost, false)
  else
    let waitTime := (cost - t1) / refillRate
    let t2 := min capacity (t1 + (waitTime + extra) * refillRate)
    (t2 - cost, true)

/-- A sequence of `acquire` calls: each entry is
`(cost, elapsed-since-last-refill, extra-sleep)`. -/
def bucketRun (capacity refillRate : ℚ) (tokens : ℚ)
    (ops : List (ℚ × ℚ × ℚ)) : ℚ :=
  ops.foldl (fun t op => (bucketAcquire capacity refillRate t op.1 op.2.1 op.2.2).1)
    tokens

/-- The demo configuration of spec scenario S1: `lower = 100`, `upper = 200`,
`count = 10`, `investment_per_grid = 10`. -/
def demoSettings : GridSettings where
  gridLowerPrice := 100
  gridUpperPrice := 200
  gridCount := 10
  gridInvestmentPerGrid := 10
  reserveRatio := 1/20
  adaptiveMode := false
  maxSpreadPercent := 1/200
  maxOrderCount := 50
  maxPositionRatio := 19/20
  stopLossPercent := 1/5
  takeProfitAmount := 1000
  martinMultiplier := 3/2
  maxMartinLevels := 3
  tradeCooldown := 5
  staleDataTimeout := 300
  maxDrawdown := 1/5

/-- Balance/filter snapshot for the concrete fill scenarios: plenty of base
asset, min notional 5, lot precision 3 decimals. -/
def demoEnv : ExchEnv where
  now := 1000
  spread := 1/1000
  freeUSDT := 1000
  freeBase := 10
  circuitBreaker := false
  analyzerLastTime := 0
  minNotional := 5
  qtyPrecision := 3
  newOrderId := 2

/-- A pending BUY at grid line 100 (exchange id 1) whose fill will come in
at 99, below its anchor price. -/
def demoBuy : GridOrder where
  gridIndex := 0
  price := 100
  side := GridSide.BUY
  quantity := 1/10
  orderId := some 1
  status := OrderStatus.PENDING
  entryPrice := none

/-- The grid of `demoSettings` (see `generateGrid_arithmetic`). -/
def demoGrid : List ℚ := [100, 110, 120, 130, 140, 150, 160, 170, 180, 190, 200]

/-- Running strategy tracking the single pending BUY. -/
def demoS0 : StratState :=
  { freshStrategyState with
    gridPrices := demoGrid
    running := true
    orders := [(100, demoBuy)] }

/-- The companion SELL that `_placeSellOrder` creates for a BUY filled at 99:
posted at grid line 110 with `entryPrice = 99` (exchange id 2). -/
def demoSell : GridOrder where
  gridIndex := 0
  price := 110
  side := GridSide.SELL
  quantity := 1/10
  orderId := some 2
  status := OrderStatus.PENDING
  entryPrice := some 99

/-- State after the BUY fill event: buy marked FILLED (still keyed at 100),
companion sell pending at 110. -/
def demoS1 : StratState :=
  { demoS0 with
    orders := [(100, { demoBuy with status := OrderStatus.FILLED }),
               (110, demoSell)]
    lastTradeTime := 1000 }

/-- The BUY fill report: filled at 99 (below the 100 anchor), qty 0.1. -/
def demoBuyFill : ExecReport :=
  { i := some 1, X := ExecStatus.FILLED, S := GridSide.BUY, L := 99, z := 1/10 }

/-- The SELL fill report for the companion order. -/
def demoSellFill : ExecReport :=
  { i := some 2, X := ExecStatus.FILLED, S := GridSide.SELL, L := 110, z := 1/10 }

/-- A book entry whose recorded entry price is the zero decimal — legal in
the data model (`entryPrice` is just a decimal), but serialised as `null`
by `toDict`'s truthiness test. -/
def zeroEntrySell : GridOrder where
  gridIndex := 3
  price := 130
  side := GridSide.SELL
  quantity := 1/2
  orderId := some 7
  status := OrderStatus.PENDING
  entryPrice := some 0

/-! ## Association-list (Python dict) lemmas -/

theorem dictKeys_updateByOrderId (b : Book) (oid : Option ℤ)
    (f : GridOrder → GridOrder) :
    dictKeys (updateByOrderId b oid f) = dictKeys b := by
  induction b with
  | nil => rfl
  | cons kv rest ih =>
      obtain ⟨k, v⟩ := kv
      by_cases h : v.orderId = oid <;> simp [updateByOrderId, dictKeys, h] <;>
        simpa [dictKeys] using ih

theorem dictMem_iff (b : Book) (k : ℚ) :
    dictMem b k = true ↔ k ∈ dictKeys b := by
  induction b with
  | nil => simp [dictMem, dictKeys]
  | cons kv rest ih =>
      rw [dictMem] at ih
      rw [dictKeys] at ih
      simp only [dictMem, List.any_cons, Bool.or_eq_true, decide_eq_true_eq,
        dictKeys, List.map_cons, List.mem_cons]
      constructor
      · rintro (h | h)
        · exact Or.inl h.symm
        · exact Or.inr (ih.1 h)
      · rintro (h | h)
        · exact Or.inl h.symm
        · exact Or.inr (ih.2 h)

theorem dictLookup_eq_none_iff (b : Book) (k : ℚ) :
    dictLookup b k = none ↔ k ∉ dictKeys b := by
  induction b with
  | nil => simp [dictLookup, dictKeys]
  | cons kv rest ih =>
      by_cases h : kv.1 = k
      · rw [dictLookup, List.find?_cons_of_pos _ (by simp [h])]
        simp [dictKeys, h]
      · rw [dictLookup, List.find?_cons_of_neg _ (by simp [h])]
        rw [dictLookup] at ih
        simp only [dictKeys, List.map_cons, List.mem_cons]
        rw [ih]
        constructor
        · rintro hnot (rfl | hm)
          · exact h rfl
          · exact hnot hm
        · intro hnot hm
          exact hnot (Or.inr hm)

theorem dictKeys_dictDel_sublist (b : Book) (k : ℚ) :
    (dictKeys (dictDel b k)).Sublist (dictKeys b) := by
  induction b with
  | nil => simp [dictDel, dictKeys]
  | cons kv rest ih =>
      obtain ⟨k', v⟩ := kv
      by_cases h : k' = k
      · simp only [dictDel, dictKeys, h, if_pos rfl, List.map_cons]
        exact (List.sublist_cons_self _ _)
      · simp only [dictDel, dictKeys, if_neg h, List.map_cons]
        exact List.Sublist.cons₂ _ ih

theorem not_mem_dictKeys_dictDel_self (b : Book) (k : ℚ)
    (h : (dictKeys b).Nodup) : k ∉ dictKeys (dictDel b k) := by
  induction b with
  | nil => simp [dictDel, dictKeys]
  | cons kv rest ih =>
      obtain ⟨k', v⟩ := kv
      simp only [dictKeys, List.map_cons, List.nodup_cons] at h
      by_cases hk : k' = k
      · subst hk
        simpa [dictDel, dictKeys] using h.1
      · simp only [dictDel, if_neg hk, dictKeys, List.map_cons, List.mem_cons]
        rintro (rfl | hmem)
        · exact hk rfl
        · exact ih h.2 hmem

theorem dictLookup_dictDel_self (b : Book) (k : ℚ)
    (h : (dictKeys b).Nodup) : dictLookup (dictDel b k) k = none :=
  (dictLookup_eq_none_iff _ _).2 (not_mem_dictKeys_dictDel_self b k h)

theorem dictLookup_dictDel_of_none (b : Book) (k k' : ℚ)
    (h : dictLookup b k = none) : dictLookup (dictDel b k') k = none := by
  rw [dictLookup_eq_none_iff] at h ⊢
  exact fun hmem => h ((dictKeys_dictDel_sublist b k').mem hmem)

/-! ## C2 — grid generation -/

/-- **C2** — For every `lower < upper` and `grid_count ≥ 2`,
`generateGrid` returns exactly `grid_count + 1` prices, the first is `lower`,
the last is `upper`, and consecutive differences are all the same constant. -/
theorem generateGrid_arithmetic (s : GridSettings)
    (hlu : s.gridLowerPrice < s.gridUpperPrice) (hc : 2 ≤ s.gridCount) :
    (generateGrid s).length = s.gridCount + 1 ∧
    (generateGrid s).getD 0 0 = s.gridLowerPrice ∧
    (generateGrid s).getD s.gridCount 0 = s.gridUpperPrice ∧
    ∀ i < s.gridCount,
      (generateGrid s).getD (i + 1) 0 - (generateGrid s).getD i 0 =
        (s.gridUpperPrice - s.gridLowerPrice) / s.gridCount := by
  have hc0 : (s.gridCount : ℚ) ≠ 0 := by
    have : 0 < s.gridCount := by omega
    exact_mod_cast this.ne'
  have hlen : (generateGrid s).length = s.gridCount + 1 := by
    rw [generateGrid, List.length_map, List.length_range]
  have hget : ∀ i, i < s.gridCount + 1 →
      (generateGrid s).getD i 0 =
        s.gridLowerPrice + (s.gridUpperPrice - s.gridLowerPrice) / s.gridCount * i := by
    intro i hi
    have hi' : i < (generateGrid s).length := by rw [hlen]; exact hi
    rw [List.getD_eq_getElem _ _ hi']
    simp only [generateGrid, List.getElem_map, List.getElem_range]
  refine ⟨hlen, ?_, ?_, ?_⟩
  · rw [hget 0 (Nat.succ_pos _)]; simp
  · rw [hget s.gridCount (Nat.lt_succ_self _)]
    field_simp
  · intro i hi
    rw [hget (i + 1) (by omega), hget i (by omega)]
    push_cast
    ring

/-- Witness: `generateGrid_arithmetic` instantiated on `demoSettings`
(`lower = 100 < upper = 200`, `count = 10`). -/
theorem generateGrid_arithmetic_witness :
    demoSettings.gridLowerPrice < demoSettings.gridUpperPrice ∧
    2 ≤ demoSettings.gridCount ∧
    (generateGrid demoSettings).length = demoSettings.gridCount + 1 := by
  refine ⟨by norm_num [demoSettings], by norm_num [demoSettings], ?_⟩
  exact (generateGrid_arithmetic demoSettings (by norm_num [demoSettings])
    (by norm_num [demoSettings])).1

/-! ## C1 — paired-profit handling of SELL fills -/

/-- Evaluation of the BUY fill event on `demoS0`: the buy is marked FILLED
(remaining keyed at 100) and the companion SELL is posted at 110 with
`entryPrice = 99`, the buy's fill price. -/
theorem demoStep1 :
    onOrderUpdate demoSettings demoEnv demoS0 demoBuyFill =
    (demoS1, [Action.createLimit GridSide.SELL 110 (1/10), Action.saveState,
              Action.recordTrade GridSide.BUY 99 (1/10), Action.saveState]) := by
  norm_num [demoS0, demoS1, demoBuy, demoSell, demoGrid, demoEnv, demoSettings,
    demoBuyFill, freshStrategyState, onOrderUpdate, findByOrderId,
    updateByOrderId, placeSellOrder, pyGet, formatQuantity, dictSet,
    scaledInvestment, List.find?]

/-- Evaluation of the SELL fill event on `demoS1`: profit
`(110 − 99)·0.1 = 1.1` is booked and the sell entry at 110 is removed, but
the entry price 99 is not a book key, so the originating buy (keyed at its
anchor 100) survives. -/
theorem demoStep2 :
    onOrderUpdate demoSettings { demoEnv with newOrderId := 3 } demoS1
      demoSellFill =
    ({ demoS1 with
        orders := [(100, { demoBuy with status := OrderStatus.FILLED })]
        realizedProfit := 11/10 },
     [Action.publishProfit (11/10), Action.recordTrade GridSide.SELL 110 (1/10),
      Action.updateTotalPnl (11/10), Action.saveState]) := by
  norm_num [demoS0, demoS1, demoBuy, demoSell, demoGrid, demoEnv, demoSettings,
    demoSellFill, freshStrategyState, onOrderUpdate, findByOrderId,
    updateByOrderId, placeSellOrder, pyGet, formatQuantity, dictSet, dictDel,
    dictMem, scaledInvestment, List.find?]

/-- **C1 (counterexample)** — The claim as stated is false: after the BUY at
anchor 100 fills at 99 and its companion SELL (entry price 99) fills, the
profit is credited exactly, yet the originating buy order is still in the
order book (the handler deletes the key `entryPrice = 99`, while the buy is
keyed at 100). -/
theorem sellFill_origin_buy_retained_counterexample :
    (onOrderUpdate demoSettings { demoEnv with newOrderId := 3 }
        (onOrderUpdate demoSettings demoEnv demoS0 demoBuyFill).1
        demoSellFill).1.realizedProfit = ((110 : ℚ) - 99) * (1/10) ∧
    dictLookup (onOrderUpdate demoSettings { demoEnv with newOrderId := 3 }
        (onOrderUpdate demoSettings demoEnv demoS0 demoBuyFill).1
        demoSellFill).1.orders 100 =
      some { demoBuy with status := OrderStatus.FILLED } := by
  rw [demoStep1]
  rw [show (demoS1, [Action.createLimit GridSide.SELL 110 ((1:ℚ)/10),
        Action.saveState, Action.recordTrade GridSide.BUY 99 ((1:ℚ)/10),
        Action.saveState]).1 = demoS1 from rfl]
  rw [demoStep2]
  refine ⟨by norm_num, ?_⟩
  norm_num [dictLookup, List.find?]

/-- **C1 (amended)** — When a tracked order with a recorded non-zero entry
price `e` is reported FILLED on side SELL with last price `L` and cumulative
quantity `z`, the handler adds exactly `(L − e)·z` to `realizedProfit`,
removes the book entry at the matched order's price, and removes any book
entry keyed at `e`; the originating buy is therefore removed exactly when it
is keyed at the recorded entry price (i.e. it filled at its anchor price),
and survives otherwise. -/
theorem sellFill_profit_and_removal (cfg : GridSettings) (env : ExchEnv)
    (s : StratState) (oid : ℤ) (L z e : ℚ) (k : ℚ) (m : GridOrder)
    (hfind : findByOrderId s.orders (some oid) = some (k, m))
    (hentry : m.entryPrice = some e) (he : e ≠ 0)
    (hnd : (dictKeys s.orders).Nodup) :
    (onOrderUpdate cfg env s
      { i := some oid, X := ExecStatus.FILLED, S := GridSide.SELL,
        L := L, z := z }).1.realizedProfit = s.realizedProfit + (L - e) * z ∧
    dictLookup (onOrderUpdate cfg env s
      { i := some oid, X := ExecStatus.FILLED, S := GridSide.SELL,
        L := L, z := z }).1.orders m.price = none ∧
    dictLookup (onOrderUpdate cfg env s
      { i := some oid, X := ExecStatus.FILLED, S := GridSide.SELL,
        L := L, z := z }).1.orders e = none := by
  have hnd1 : (dictKeys (updateByOrderId s.orders (some oid)
      (fun o => { o with status := OrderStatus.FILLED }))).Nodup := by
    rw [dictKeys_updateByOrderId]; exact hnd
  simp only [onOrderUpdate, hfind, hentry, Option.getD_some,
    decide_eq_true_eq, ne_eq, he, not_false_eq_true, if_true]
  refine ⟨trivial, ?_, ?_⟩
  · have hbase : dictLookup (dictDel (updateByOrderId s.orders (some oid)
        (fun o => { o with status := OrderStatus.FILLED })) m.price)
        m.price = none :=
      dictLookup_dictDel_self _ _ hnd1
    split
    · exact dictLookup_dictDel_of_none _ _ _ hbase
    · exact hbase
  · have hnd2 : (dictKeys (dictDel (updateByOrderId s.orders (some oid)
        (fun o => { o with status := OrderStatus.FILLED })) m.price)).Nodup :=
      hnd1.sublist (dictKeys_dictDel_sublist _ _)
    split
    · exact dictLookup_dictDel_self _ _ hnd2
    · rename_i hmem
      rw [dictLookup_eq_none_iff]
      intro hin
      exact hmem ((dictMem_iff _ _).2 hin)

/-- Witness: `sellFill_profit_and_removal` applied to the concrete SELL fill
of the demo scenario. -/
theorem sellFill_profit_and_removal_witness :
    findByOrderId demoS1.orders (some 2) = some (110, demoSell) ∧
    demoSell.entryPrice = some 99 ∧ ((99 : ℚ) ≠ 0) ∧
    (dictKeys demoS1.orders).Nodup ∧
    (onOrderUpdate demoSettings { demoEnv with newOrderId := 3 } demoS1
      { i := some 2, X := ExecStatus.FILLED, S := GridSide.SELL,
        L := 110, z := 1/10 }).1.realizedProfit =
      demoS1.realizedProfit + ((110 : ℚ) - 99) * (1/10) := by
  have hfind : findByOrderId demoS1.orders (some 2) = some (110, demoSell) := by
    norm_num [findByOrderId, demoS1, demoS0, demoBuy, demoSell,
      freshStrategyState, List.find?]
  have hnd : (dictKeys demoS1.orders).Nodup := by
    norm_num [dictKeys, demoS1, demoS0, demoBuy, demoSell, freshStrategyState]
  refine ⟨hfind, rfl, by norm_num, hnd, ?_⟩
  exact (sellFill_profit_and_removal demoSettings
    { demoEnv with newOrderId := 3 } demoS1 2 110 (1/10) 99 110 demoSell
    hfind rfl (by norm_num) hnd).1

/-! ## C8 — fill handling while the strategy is stopped -/

/-- **C8** — A FILLED BUY report arriving while `running = false` records the
trade but also places the companion SELL: `on_order_update` never consults
`_running`, so the companion order is created and tracked regardless. -/
theorem filled_buy_places_companion_while_stopped :
    (onOrderUpdate demoSettings demoEnv
        { demoS0 with running := false } demoBuyFill).1.running = false ∧
    dictLookup (onOrderUpdate demoSettings demoEnv
        { demoS0 with running := false } demoBuyFill).1.orders 110 =
      some demoSell ∧
    Action.createLimit GridSide.SELL 110 (1/10) ∈
      (onOrderUpdate demoSettings demoEnv
        { demoS0 with running := false } demoBuyFill).2 ∧
    Action.recordTrade GridSide.BUY 99 (1/10) ∈
      (onOrderUpdate demoSettings demoEnv
        { demoS0 with running := false } demoBuyFill).2 := by
  have h : onOrderUpdate demoSettings demoEnv
      { demoS0 with running := false } demoBuyFill =
      ({ demoS1 with running := false },
       [Action.createLimit GridSide.SELL 110 (1/10), Action.saveState,
        Action.recordTrade GridSide.BUY 99 (1/10), Action.saveState]) := by
    norm_num [demoS0, demoS1, demoBuy, demoSell, demoGrid, demoEnv,
      demoSettings, demoBuyFill, freshStrategyState, onOrderUpdate,
      findByOrderId, updateByOrderId, placeSellOrder, pyGet, formatQuantity,
      dictSet, scaledInvestment, List.find?]
  rw [h]
  refine ⟨rfl, ?_, by norm_num, by norm_num⟩
  norm_num [dictLookup, List.find?, demoS1, demoS0, demoBuy, demoSell,
    freshStrategyState]

/-! ## C3 — persistence round trip -/

theorem dictSet_append_of_not_mem (b : Book) (k : ℚ) (v : GridOrder)
    (h : k ∉ dictKeys b) : dictSet b k v = b ++ [(k, v)] := by
  induction b with
  | nil => rfl
  | cons kv rest ih =>
      obtain ⟨k', v'⟩ := kv
      simp only [dictKeys, List.map_cons, List.mem_cons] at h
      push_neg at h
      have hne : ¬(k' = k) := fun hh => h.1 hh.symm
      rw [dictSet, if_neg hne, ih (by simpa [dictKeys] using h.2)]
      rfl

theorem foldl_dictSet_eq_append (b : Book) :
    ∀ acc : Book, (dictKeys b).Nodup →
    (∀ k ∈ dictKeys b, k ∉ dictKeys acc) →
    b.foldl (fun a kv => dictSet a kv.1 kv.2) acc = acc ++ b := by
  induction b with
  | nil => intro acc _ _; simp
  | cons kv rest ih =>
      intro acc hnd hdisj
      obtain ⟨k', v'⟩ := kv
      simp only [List.foldl_cons]
      have hk : k' ∉ dictKeys acc :=
        hdisj k' (by simp [dictKeys])
      rw [dictSet_append_of_not_mem acc k' v' hk]
      simp only [dictKeys, List.map_cons, List.nodup_cons] at hnd
      have hres := ih (acc ++ [(k', v')]) hnd.2 (by
        intro k hkr
        simp only [dictKeys, List.map_append, List.map_cons, List.map_nil,
          List.mem_append, List.mem_cons, List.not_mem_nil, or_false]
        rintro (hacc | rfl)
        · exact hdisj k (by
            simp only [dictKeys, List.map_cons, List.mem_cons]
            exact Or.inr hkr) hacc
        · exact hnd.1 hkr)
      rw [hres, List.append_assoc]
      simp

/-- **C3 (amended)** — Saving then reloading restores the order book and
`realizedProfit` exactly, provided every book entry is keyed at its order's
price, keys are distinct (both invariants of the code's book), and no order
carries the zero decimal as its recorded entry price (a zero entry price is
serialised as `null` by `toDict`'s truthiness test and restored as absent). -/
theorem stateRoundTrip_restores (b : Book) (profit : ℚ)
    (hkeys : ∀ kv ∈ b, kv.1 = kv.2.price)
    (hnd : (dictKeys b).Nodup)
    (hentry : ∀ kv ∈ b, kv.2.entryPrice ≠ some 0) :
    saveLoadOrders b = b ∧ saveLoadProfit profit = profit := by
  refine ⟨?_, rfl⟩
  have hrt : ∀ kv ∈ b, orderRoundTrip kv.2 = kv.2 := by
    intro kv hm
    have hz := hentry kv hm
    have hser : serializeEntryPrice kv.2.entryPrice = kv.2.entryPrice := by
      cases h : kv.2.entryPrice with
      | none => rfl
      | some e =>
          rw [h] at hz
          have : e ≠ 0 := fun h0 => hz (by rw [h0])
          simp [serializeEntryPrice, this]
    rw [orderRoundTrip, hser]
  have hcong : saveLoadOrders b =
      b.foldl (fun a kv => dictSet a kv.1 kv.2) [] := by
    rw [saveLoadOrders]
    apply List.foldl_ext
    intro a kv hm
    rw [hrt kv hm, ← hkeys kv hm]
  rw [hcong, foldl_dictSet_eq_append b [] hnd (by simp [dictKeys])]
  simp

/-- Witness: a one-entry book (the FILLED demo buy keyed at its price 100)
round-trips unchanged. -/
theorem stateRoundTrip_restores_witness :
    (∀ kv ∈ [((100 : ℚ), demoBuy)], kv.1 = kv.2.price) ∧
    (dictKeys [((100 : ℚ), demoBuy)]).Nodup ∧
    (∀ kv ∈ [((100 : ℚ), demoBuy)], kv.2.entryPrice ≠ some 0) ∧
    saveLoadOrders [((100 : ℚ), demoBuy)] = [((100 : ℚ), demoBuy)] := by
  have h1 : ∀ kv ∈ [((100 : ℚ), demoBuy)], kv.1 = kv.2.price := by
    simp [demoBuy]
  have h2 : (dictKeys [((100 : ℚ), demoBuy)]).Nodup := by simp [dictKeys]
  have h3 : ∀ kv ∈ [((100 : ℚ), demoBuy)], kv.2.entryPrice ≠ some 0 := by
    simp [demoBuy]
  exact ⟨h1, h2, h3, (stateRoundTrip_restores _ 0 h1 h2 h3).1⟩

/-- **C3 (counterexample)** — The claim as stated is false: a SELL order whose
recorded entry price is the zero decimal does not survive the round trip
(`toDict` writes `null` for it, `fromDict` restores no entry price). -/
theorem stateRoundTrip_zero_entry_counterexample :
    saveLoadOrders [((130 : ℚ), zeroEntrySell)] ≠ [((130 : ℚ), zeroEntrySell)] ∧
    saveLoadOrders [((130 : ℚ), zeroEntrySell)] =
      [((130 : ℚ), { zeroEntrySell with entryPrice := none })] := by
  constructor
  · simp [saveLoadOrders, orderRoundTrip, serializeEntryPrice, zeroEntrySell,
      dictSet]
  · simp [saveLoadOrders, orderRoundTrip, serializeEntryPrice, zeroEntrySell,
      dictSet]

/-! ## C4 — emergency-exit idempotence -/

/-- **C4** — After an emergency exit the running flag is false, and every
further tick at or below the stop-loss threshold is a complete no-op: the
state is returned unchanged and no external action (no cancellation, no
market sell, not even the price broadcast) is emitted. -/
theorem emergencyExit_second_trigger_noop (cfg : GridSettings)
    (env env' : ExchEnv) (s : StratState) (p : ℚ)
    (hp : p ≤ pyGet (emergencyExit env s).1.gridPrices 0 *
      (1 - cfg.stopLossPercent)) :
    (emergencyExit env s).1.running = false ∧
    onPriceUpdate cfg env' (emergencyExit env s).1 p =
      some ((emergencyExit env s).1, []) := by
  refine ⟨rfl, ?_⟩
  simp [onPriceUpdate, emergencyExit]

/-- Witness: the demo strategy after an emergency exit ignores a tick at 0,
far below the stop-loss threshold 80. -/
theorem emergencyExit_second_trigger_noop_witness :
    ((0 : ℚ) ≤ pyGet (emergencyExit demoEnv demoS1).1.gridPrices 0 *
      (1 - demoSettings.stopLossPercent)) ∧
    onPriceUpdate demoSettings demoEnv (emergencyExit demoEnv demoS1).1 0 =
      some ((emergencyExit demoEnv demoS1).1, []) := by
  have hp : (0 : ℚ) ≤ pyGet (emergencyExit demoEnv demoS1).1.gridPrices 0 *
      (1 - demoSettings.stopLossPercent) := by
    norm_num [pyGet, emergencyExit, demoS1, demoS0, demoGrid, demoSettings,
      freshStrategyState]
  exact ⟨hp, (emergencyExit_second_trigger_noop demoSettings demoEnv demoEnv
    demoS1 0 hp).2⟩

/-! ## C5 — asymmetric confirmation and cooling -/

theorem generateAdjustment_pause (st : MarketState) (ind : IndicatorInputs) :
    (generateAdjustment st ind).shouldPause =
      decide (st = MarketState.SLOW_BLEED) := by
  cases st <;> rfl

/-- **C5** — (1) a raw `SLOW_BLEED` classification confirms immediately;
(2) with the freshly-entered (empty) confirmation buffer, one non-danger
sample leaves the confirmed state unchanged and a second consecutive sample
of the same target switches to it, while a differing second sample does not;
(3) on the evaluation that leaves `SLOW_BLEED` the cooling counter is set to
3, so the adjustment emitted there and on the next two evaluations forces
`should_pause = true`, and the third later evaluation no longer does. -/
theorem analyzer_asymmetric_confirmation :
    (∀ (a : AnalyzerState) (ind : IndicatorInputs),
      ((analyzeStep a MarketState.SLOW_BLEED ind).1).controller.currentState =
        MarketState.SLOW_BLEED) ∧
    (∀ (a : AnalyzerState) (X : MarketState) (ind ind' : IndicatorInputs),
      a.controller.currentState = MarketState.SLOW_BLEED →
      a.controller.stateBuffer = [] →
      a.controller.confirmationCandles = 2 →
      isDangerState X = false →
      ((analyzeStep a X ind).1.controller.currentState =
          MarketState.SLOW_BLEED ∧
       (analyzeStep (analyzeStep a X ind).1 X ind').1.controller.currentState
          = X ∧
       ∀ Y, isDangerState Y = false → Y ≠ X →
         (analyzeStep (analyzeStep a X ind).1 Y ind').1.controller.currentState
           = MarketState.SLOW_BLEED)) ∧
    (∀ (a : AnalyzerState) (X : MarketState) (i1 i2 i3 i4 : IndicatorInputs),
      a.controller.currentState = MarketState.SLOW_BLEED →
      a.controller.stateBuffer = [X] →
      a.controller.confirmationCandles = 2 →
      a.coolingRemaining = 0 →
      isDangerState X = false →
      (analyzeStep a X i1).1.controller.currentState = X ∧
      (analyzeStep a X i1).2.shouldPause = true ∧
      (analyzeStep (analyzeStep a X i1).1 X i2).2.shouldPause = true ∧
      (analyzeStep (analyzeStep (analyzeStep a X i1).1 X i2).1 X i3).2.shouldPause
        = true ∧
      (analyzeStep (analyzeStep (analyzeStep
          (analyzeStep a X i1).1 X i2).1 X i3).1 X i4).2.shouldPause
        = false) := by
  refine ⟨?_, ?_, ?_⟩
  · intro a ind
    by_cases h : a.controller.currentState = MarketState.SLOW_BLEED <;>
      simp [analyzeStep, getConfirmedState, isDangerState, h]
  · intro a X ind ind' h1 h2 h3 hX
    obtain ⟨⟨cs, buf, cc⟩, cool⟩ := a
    simp only at h1 h2 h3
    subst h1; subst h2; subst h3
    have hXS : X ≠ MarketState.SLOW_BLEED := by
      intro h; subst h; simp [isDangerState] at hX
    refine ⟨?_, ?_, ?_⟩
    · simp [analyzeStep, getConfirmedState, hX, hXS, dequeAppend]
    · simp [analyzeStep, getConfirmedState, hX, hXS, dequeAppend]
    · intro Y hY hYX
      have hYS : Y ≠ MarketState.SLOW_BLEED := by
        intro h; subst h; simp [isDangerState] at hY
      simp [analyzeStep, getConfirmedState, hX, hXS, hY, hYS, hYX,
        dequeAppend, hYX.symm]
  · intro a X i1 i2 i3 i4 h1 h2 h3 h4 hX
    obtain ⟨⟨cs, buf, cc⟩, cool⟩ := a
    simp only at h1 h2 h3 h4
    subst h1; subst h2; subst h3; subst h4
    cases X with
    | SLOW_BLEED => exact absurd hX (by simp [isDangerState])
    | PANIC_SELL => exact absurd hX (by simp [isDangerState])
    | LOW_VOL_RANGE =>
        refine ⟨?_, ?_, ?_, ?_, ?_⟩ <;>
          simp [analyzeStep, getConfirmedState, isDangerState, dequeAppend,
            COOLING_CANDLES, generateAdjustment_pause]
    | WIDE_RANGE =>
        refine ⟨?_, ?_, ?_, ?_, ?_⟩ <;>
          simp [analyzeStep, getConfirmedState, isDangerState, dequeAppend,
            COOLING_CANDLES, generateAdjustment_pause]
    | STRONG_BREAKOUT =>
        refine ⟨?_, ?_, ?_, ?_, ?_⟩ <;>
          simp [analyzeStep, getConfirmedState, isDangerState, dequeAppend,
            COOLING_CANDLES, generateAdjustment_pause]

/-- Witness: `analyzer_asymmetric_confirmation` applied to the concrete
state `(SLOW_BLEED, buffer [], candles 2)` with target `LOW_VOL_RANGE` and
all-zero indicator inputs. -/
theorem analyzer_asymmetric_confirmation_witness :
    (isDangerState MarketState.LOW_VOL_RANGE = false) ∧
    ((analyzeStep
      ⟨⟨MarketState.SLOW_BLEED, [], 2⟩, 0⟩ MarketState.LOW_VOL_RANGE
      ⟨0, 0, 0, 0, 0, 0, false, false, 0⟩).1.controller.currentState =
        MarketState.SLOW_BLEED) ∧
    ((analyzeStep (analyzeStep
      ⟨⟨MarketState.SLOW_BLEED, [], 2⟩, 0⟩ MarketState.LOW_VOL_RANGE
      ⟨0, 0, 0, 0, 0, 0, false, false, 0⟩).1 MarketState.LOW_VOL_RANGE
      ⟨0, 0, 0, 0, 0, 0, false, false, 0⟩).1.controller.currentState =
        MarketState.LOW_VOL_RANGE) := by
  have h := analyzer_asymmetric_confirmation.2.1
    ⟨⟨MarketState.SLOW_BLEED, [], 2⟩, 0⟩ MarketState.LOW_VOL_RANGE
    ⟨0, 0, 0, 0, 0, 0, false, false, 0⟩ ⟨0, 0, 0, 0, 0, 0, false, false, 0⟩
    rfl rfl rfl rfl
  exact ⟨rfl, h.1, h.2.1⟩

/-! ## C6 — retry classification -/

theorem retryGo_trace_head (hasSync : Bool) (outcomes : ℕ → CallOutcome) :
    ∀ (r idx : ℕ) (trace : List RetryEvent) (last : Option CallOutcome),
      ∃ t, (retryGo hasSync outcomes (r + 1) idx trace last).1 =
        trace ++ RetryEvent.call idx :: t := by
  intro r
  induction r with
  | zero =>
      intro idx trace last
      rw [retryGo]
      cases houtcome : outcomes idx with
      | success => exact ⟨[], by simp⟩
      | apiError c =>
          cases hcls : classifyError c with
          | skip => exact ⟨[], by simp [hcls]⟩
          | retryable =>
              by_cases hsync : c = -1021 ∧ hasSync = true
              · obtain ⟨rfl, hs⟩ := hsync
                subst hs
                exact ⟨[RetryEvent.sync], by simp [hcls, retryGo]⟩
              · exact ⟨[], by simp [hcls, hsync, retryGo]⟩
          | unknown => exact ⟨[], by simp [hcls]⟩
      | netError => exact ⟨[], by simp [retryGo]⟩
  | succ r ih =>
      intro idx trace last
      rw [retryGo]
      cases houtcome : outcomes idx with
      | success => exact ⟨[], by simp⟩
      | apiError c =>
          cases hcls : classifyError c with
          | skip => exact ⟨[], by simp [hcls]⟩
          | retryable =>
              by_cases hsync : c = -1021 ∧ hasSync = true
              · obtain ⟨rfl, hs⟩ := hsync
                subst hs
                obtain ⟨t, ht⟩ := ih (idx + 1)
                  (trace ++ [RetryEvent.call idx, RetryEvent.sync])
                  (some (CallOutcome.apiError (-1021)))
                refine ⟨RetryEvent.sync :: RetryEvent.call (idx + 1) :: t, ?_⟩
                simp [hcls, ht]
              · obtain ⟨t, ht⟩ := ih (idx + 1) (trace ++ [RetryEvent.call idx])
                  (some (CallOutcome.apiError c))
                refine ⟨RetryEvent.call (idx + 1) :: t, ?_⟩
                simp [hcls, hsync, ht]
          | unknown =>
              obtain ⟨t, ht⟩ := ih (idx + 1) (trace ++ [RetryEvent.call idx])
                (some (CallOutcome.apiError c))
              refine ⟨RetryEvent.call (idx + 1) :: t, ?_⟩
              simp [hcls, ht]
      | netError =>
          obtain ⟨t, ht⟩ := ih (idx + 1) (trace ++ [RetryEvent.call idx])
            (some CallOutcome.netError)
          refine ⟨RetryEvent.call (idx + 1) :: t, ?_⟩
          simp [ht]

/-- **C6** — (1) an `ApiError` with code -2010 on the first attempt is
re-raised immediately: the wrapped function is invoked exactly once and no
retry and no clock-resync happen; (2) an `ApiError` with code -1021 on the
first attempt triggers the `onTimeSyncError` callback (when supplied) and
then a second invocation of the wrapped function: the event trace begins
`call 0, sync, call 1`. -/
theorem retry_classification :
    (∀ (n : ℕ) (hasSync : Bool) (outcomes : ℕ → CallOutcome),
      outcomes 0 = CallOutcome.apiError (-2010) →
      retryOnErrorRun (n + 1) hasSync outcomes =
        ([RetryEvent.call 0], RetryResult.raisedApi (-2010))) ∧
    (∀ (n : ℕ) (outcomes : ℕ → CallOutcome),
      outcomes 0 = CallOutcome.apiError (-1021) →
      (retryOnErrorRun (n + 2) true outcomes).1.take 3 =
        [RetryEvent.call 0, RetryEvent.sync, RetryEvent.call 1]) := by
  constructor
  · intro n hasSync outcomes h
    rw [retryOnErrorRun, retryGo]
    norm_num [h, classifyError]
  · intro n outcomes h
    have hcls : classifyError (-1021) = ErrorClass.retryable := by
      norm_num [classifyError]
    have hstep : retryOnErrorRun (n + 2) true outcomes =
        retryGo true outcomes (n + 1) 1
          [RetryEvent.call 0, RetryEvent.sync]
          (some (CallOutcome.apiError (-1021))) := by
      rw [retryOnErrorRun, retryGo]
      simp [h, hcls]
    obtain ⟨t, ht⟩ := retryGo_trace_head true outcomes n 1
      [RetryEvent.call 0, RetryEvent.sync]
      (some (CallOutcome.apiError (-1021)))
    rw [hstep, ht]
    rfl

/-- Witness: a function that fails once with -2010 is not retried
(one call, no sync), and a function that fails once with -1021 under a
supplied resync callback is re-invoked after the sync. -/
theorem retry_classification_witness :
    ((fun k => if k = 0 then CallOutcome.apiError (-2010)
        else CallOutcome.success) 0 = CallOutcome.apiError (-2010)) ∧
    retryOnErrorRun 3 true
      (fun k => if k = 0 then CallOutcome.apiError (-2010)
        else CallOutcome.success) =
      ([RetryEvent.call 0], RetryResult.raisedApi (-2010)) ∧
    ((fun k => if k = 0 then CallOutcome.apiError (-1021)
        else CallOutcome.success) 0 = CallOutcome.apiError (-1021)) ∧
    (retryOnErrorRun 3 true
      (fun k => if k = 0 then CallOutcome.apiError (-1021)
        else CallOutcome.success)).1.take 3 =
      [RetryEvent.call 0, RetryEvent.sync, RetryEvent.call 1] := by
  refine ⟨rfl, ?_, rfl, ?_⟩
  · exact retry_classification.1 2 true _ rfl
  · exact retry_classification.2 1 _ rfl

/-! ## C7 — start-up balance validation -/

/-- Fresh-start environment with ample base asset (no bootstrap buy needed)
but zero free quote balance — far below the fee-buffered requirement
`10 × 10 × 1.002 = 100.2`. -/
def c7env : InitEnv where
  restored := false
  restoredOrders := []
  restoredProfit := 0
  restoredLastPrice := 0
  currentPrice := 150
  freeUSDT := 0
  freeBase := 10
  qtyPrecision := 3
  initialEquity := 1500

/-- **C7** — `initialize` does not enforce the quote-balance validation: with
free quote balance 0, far below `investment_per_grid × grid_count × 1.002`,
the gap check passes, bootstrap finds the base position sufficient, and the
strategy still enters the running state. -/
theorem initialize_starts_despite_insufficient_quote :
    c7env.freeUSDT < totalRequired demoSettings ∧
    (initializeModel demoSettings c7env).map (fun r => r.1.running) =
      some true := by
  constructor
  · norm_num [c7env, totalRequired, demoSettings]
  · norm_num [initializeModel, bootstrapPosition, bootstrapNeeded,
      bootstrapNeededLoop, freshStrategyState, demoSettings, c7env]

/-! ## C9 — market-order amount validation -/

/-- **C9 (counterexample)** — The claim as stated is false: a call providing
both the base quantity and the quote quantity is not rejected; it succeeds,
submitting the base quantity and silently discarding the quote amount. -/
theorem createMarketOrder_both_accepted_counterexample :
    createMarketOrder 3 GridSide.BUY (some 1) (some 5) =
      Except.ok { side := GridSide.BUY, quantity := some 1,
                  quoteOrderQty := none } := by
  norm_num [createMarketOrder, formatQuantity]

/-- **C9 (amended)** — `createMarketOrder` raises `InvalidOrderError` when
neither amount is provided; when the base quantity is present it is used
(formatted to lot precision) regardless of whether a quote amount was also
passed — the quote amount is silently ignored, not rejected; the quote
amount alone is forwarded as `quoteOrderQty`. -/
theorem createMarketOrder_exactly_one_amended (p : ℕ) (side : GridSide) :
    createMarketOrder p side none none = Except.error "InvalidOrderError" ∧
    (∀ q qq, createMarketOrder p side (some q) qq =
      Except.ok { side := side, quantity := some (formatQuantity p q),
                  quoteOrderQty := none }) ∧
    (∀ qq, createMarketOrder p side none (some qq) =
      Except.ok { side := side, quantity := none,
                  quoteOrderQty := some qq }) :=
  ⟨rfl, fun _ _ => rfl, fun _ => rfl⟩

/-! ## C10 — token-bucket invariant -/

theorem bucketAcquire_bounds (cap rate t cost e1 extra : ℚ)
    (hrate : 0 < rate) (hcost : 0 < cost) (hcap : cost ≤ cap)
    (hextra : 0 ≤ extra) :
    0 ≤ (bucketAcquire cap rate t cost e1 extra).1 ∧
    (bucketAcquire cap rate t cost e1 extra).1 ≤ cap := by
  rw [bucketAcquire]
  split
  · rename_i h
    constructor
    · simpa using h
    · have h1 : min cap (t + e1 * rate) ≤ cap := min_le_left _ _
      simp only
      linarith
  · rename_i h
    set t1 := min cap (t + e1 * rate) with ht1
    have hsum : t1 + ((cost - t1) / rate + extra) * rate =
        cost + extra * rate := by
      field_simp
      ring
    simp only [hsum]
    have hge : cost ≤ min cap (cost + extra * rate) :=
      le_min hcap (by nlinarith)
    have hle : min cap (cost + extra * rate) ≤ cap := min_le_left _ _
    constructor <;> linarith

/-- **C10** — With positive refill rate, any sequence of `acquire(cost)`
calls with `0 < cost ≤ capacity` (and non-negative elapsed/extra-sleep
times) keeps the token count within `[0, capacity]` after every operation,
each call completing after its at-most-one cooperative wait; the bound is a
real precondition: a single `acquire` with `cost > capacity` leaves the
count negative. -/
theorem tokenBucket_bounds :
    (∀ (cap rate t : ℚ) (ops : List (ℚ × ℚ × ℚ)),
      0 < rate → 0 ≤ t → t ≤ cap →
      (∀ op ∈ ops, 0 < op.1 ∧ op.1 ≤ cap ∧ 0 ≤ op.2.2) →
      0 ≤ bucketRun cap rate t ops ∧ bucketRun cap rate t ops ≤ cap) ∧
    (∀ (cap rate t cost e1 extra : ℚ), cap < cost →
      (bucketAcquire cap rate t cost e1 extra).1 < 0) := by
  constructor
  · intro cap rate t ops hrate
    induction ops generalizing t with
    | nil => intro h0 h1 _; simpa [bucketRun] using ⟨h0, h1⟩
    | cons op rest ih =>
        intro h0 h1 hops
        have hop := hops op (List.mem_cons_self _ _)
        have hb := bucketAcquire_bounds cap rate t op.1 op.2.1 op.2.2 hrate
          hop.1 hop.2.1 hop.2.2
        have := ih _ hb.1 hb.2
          (fun op' h' => hops op' (List.mem_cons_of_mem _ h'))
        simpa [bucketRun] using this
  · intro cap rate t cost e1 extra hlt
    rw [bucketAcquire]
    have ht1 : min cap (t + e1 * rate) ≤ cap := min_le_left _ _
    rw [if_neg (by linarith)]
    have : min cap (min cap (t + e1 * rate) +
        ((cost - min cap (t + e1 * rate)) / rate + extra) * rate) ≤ cap :=
      min_le_left _ _
    simp only
    linarith

/-- Witness: `tokenBucket_bounds` at capacity 5, rate 1, full bucket, one
`acquire(1)`; and an over-capacity `acquire(6)` on the same bucket goes
negative. -/
theorem tokenBucket_bounds_witness :
    ((0 : ℚ) < 1 ∧ (0 : ℚ) ≤ 5 ∧ (5 : ℚ) ≤ 5 ∧
      (∀ op ∈ [((1 : ℚ), (0 : ℚ), (0 : ℚ))], 0 < op.1 ∧ op.1 ≤ 5 ∧ 0 ≤ op.2.2)) ∧
    (0 ≤ bucketRun 5 1 5 [((1 : ℚ), (0 : ℚ), (0 : ℚ))] ∧
      bucketRun 5 1 5 [((1 : ℚ), (0 : ℚ), (0 : ℚ))] ≤ 5) ∧
    ((5 : ℚ) < 6 ∧ (bucketAcquire 5 1 5 6 0 0).1 < 0) := by
  have hops : ∀ op ∈ [((1 : ℚ), (0 : ℚ), (0 : ℚ))],
      0 < op.1 ∧ op.1 ≤ (5 : ℚ) ∧ 0 ≤ op.2.2 := by
    intro op h
    simp only [List.mem_singleton] at h
    subst h
    norm_num
  refine ⟨⟨by norm_num, by norm_num, by norm_num, hops⟩, ?_, by norm_num, ?_⟩
  · exact tokenBucket_bounds.1 5 1 5 _ (by norm_num) (by norm_num)
      (by norm_num) hops
  · exact tokenBucket_bounds.2 5 1 5 6 0 0 (by norm_num)

end BinanceBot
